import Mathlib

/-!
Shallow embedding of the incremental computation engine of
`dice/dice/src/impls/incremental/mod.rs` and the critical-path backend
selection of `app/buck2_build_signals_impl/src/backend/backend.rs`.

Pure data is translated directly from the source.  Asynchronous control flow
is embedded by making each suspension point's outcome an explicit argument
(the store's lookup/update replies, the dependency resolutions delivered by
the `FuturesUnordered` stream in arrival order, the success or failure of
`try_to_disable_cancellation`) and recording the externally visible effects
(store requests issued, the result published to the task handle, evaluator
invocations) in an effects record.
-/

/-- Modelled from the spec: `DiceKey` is an interned compact integer id for a
user key (`KeyIndex` maps id to key object); its definition lives outside the
provided sources.  We use a bare natural number. -/
abbrev DiceKey := Nat

/-- Modelled from the spec: `VersionNumber` is a monotonically increasing
integer representing a snapshot of external inputs. -/
abbrev VersionNumber := Nat

/-- Modelled from the spec: `VersionEpoch` is a generation counter scoped to
the engine instance. -/
abbrev VersionEpoch := Nat

/-- Modelled from the spec: `DiceError` is an opaque error value (evaluator or
cycle error); its definition lives outside the provided sources.  We use a
bare natural number so that distinct errors exist. -/
abbrev DiceError := Nat

/-- Modelled from the spec: `VersionRanges` is a set of closed-open intervals
of versions over which a value is known valid.  An interval `(lo, hi)` stands
for the versions `lo ≤ v < hi`. -/
structure VersionRanges where
  ranges : List (Nat × Nat)
deriving DecidableEq, Repr

/-- Intersection of two closed-open intervals, dropping the result when it is
empty. -/
def intersectInterval (a b : Nat × Nat) : Option (Nat × Nat) :=
  let lo := max a.1 b.1
  let hi := min a.2 b.2
  if lo < hi then some (lo, hi) else none

/-- Modelled from the spec: two version-range sets intersect by pairwise range
intersection ("Two histories intersect by range intersection"). -/
def VersionRanges.intersect (r s : VersionRanges) : VersionRanges :=
  ⟨r.ranges.flatMap (fun a => s.ranges.filterMap (intersectInterval a))⟩

/-- Modelled from the spec: a version-range set is empty when it holds no
interval (intersection only ever produces non-empty intervals). -/
def VersionRanges.is_empty (r : VersionRanges) : Bool :=
  r.ranges.isEmpty

/-- Modelled from the spec: a value is live at `v` iff some range contains
`v`. -/
def VersionRanges.contains (r : VersionRanges) (v : Nat) : Bool :=
  r.ranges.any (fun a => a.1 ≤ v && v < a.2)

/-- Modelled from the spec: `CellHistory` records the version ranges over
which a cached value is valid; only its verified ranges are relevant here. -/
abbrev CellHistory := VersionRanges

/-- Modelled from the spec: `verified(v)` yields the singleton closed-open
range `[v, v+1)`. -/
def CellHistory.verified (v : Nat) : CellHistory :=
  ⟨[(v, v + 1)]⟩

/-- Modelled from the spec: a value is either valid (cacheable) or transient
(used once, never cached); the payload is abstracted to a natural number. -/
structure MaybeValidDiceValue where
  payload : Nat
  valid : Bool
deriving DecidableEq, Repr

/-- Modelled from the spec: `into_valid_value` splits a value into the valid
case (`Ok`) and the transient case (`Err`, carrying the value back); its
definition lives outside the provided sources. -/
def into_valid_value (v : MaybeValidDiceValue) :
    Except MaybeValidDiceValue MaybeValidDiceValue :=
  if v.valid then Except.ok v else Except.error v

/-- Modelled from the spec: `ComputedValue = (Value, CellHistory)`, the unit
stored and returned (`DiceComputedValue` in the source). -/
structure DiceComputedValue where
  value : MaybeValidDiceValue
  history : CellHistory
deriving DecidableEq, Repr

/-- Modelled from the spec: the storage policy carried by a value, Normal or
Injected. -/
inductive StorageType where
  | Normal
  | Injected
deriving DecidableEq, Repr

/-- An `UpdateComputed` store request as assembled by the engine
(`StateRequest::UpdateComputed` fields `key`, `epoch`, `storage`, `value`,
`deps`; the key packs the version and the dice key). -/
structure UpdateComputedRequest where
  key : DiceKey
  version : VersionNumber
  epoch : VersionEpoch
  storage : StorageType
  value : MaybeValidDiceValue
  deps : List DiceKey
deriving DecidableEq, Repr

/-- The result of the evaluator (`EvalOutput`): the value, its storage policy
and the recorded deps (`evaluation_data` feeds only the activation tracker and
is omitted). -/
structure EvalResult where
  value : MaybeValidDiceValue
  storage : StorageType
  deps : List DiceKey
deriving DecidableEq, Repr

/-- The verdict of `compute_whether_dependencies_changed`, translated from
`enum DidDepsChange` in the source. -/
inductive DidDepsChange where
  | Changed
  | NoChange (deps : List DiceKey)
  | NoDeps
deriving DecidableEq, Repr

/-- The `while let Some(dep_res) = fs.next().await` loop of
`compute_whether_dependencies_changed`, translated from the source: dependency
resolutions arrive as a list of results (each `Ok` carries the dep's verified
ranges), the running `verified_versions` intersection is folded over them,
an empty running intersection or an errored resolution returns `Changed`
immediately, and an exhausted stream returns `NoChange(deps)`. -/
def depsCheckLoop (deps : List DiceKey) (verified : VersionRanges) :
    List (Except DiceError VersionRanges) → DidDepsChange
  | [] => DidDepsChange.NoChange deps
  | Except.error _ :: _ => DidDepsChange.Changed
  | Except.ok r :: rest =>
    let v' := verified.intersect r
    if v'.is_empty then DidDepsChange.Changed
    else depsCheckLoop deps v' rest

/-- `IncrementalEngine::compute_whether_dependencies_changed`, translated from
the source: an empty dep list returns `NoDeps` before any dependency is
driven; otherwise the arrival loop runs over the dep resolutions. -/
def compute_whether_dependencies_changed (deps : List DiceKey)
    (verified_versions : VersionRanges)
    (depResults : List (Except DiceError VersionRanges)) : DidDepsChange :=
  if deps.isEmpty then DidDepsChange.NoDeps
  else depsCheckLoop deps verified_versions depResults

/-- The full intersection of the prior verified ranges with every dep's
verified ranges, with no short-circuiting: the reference value the claims
compare the checker's running intersection against. -/
def finalIntersection (verified : VersionRanges) (rs : List VersionRanges) :
    VersionRanges :=
  rs.foldl VersionRanges.intersect verified

/-- The running intersection of the checker, as a standalone fold: `none`
once the running intersection becomes empty, otherwise `some` of the running
value. -/
def runIntersect (verified : VersionRanges) :
    List VersionRanges → Option VersionRanges
  | [] => some verified
  | r :: rest =>
    let v' := verified.intersect r
    if v'.is_empty then none else runIntersect v' rest

/-- Decidable equality for `Except`, needed to evaluate the effects records
on concrete inputs. -/
instance instDecEqExcept {ε α : Type} [DecidableEq ε] [DecidableEq α] :
    DecidableEq (Except ε α)
  | Except.ok a, Except.ok b =>
    if h : a = b then isTrue (by rw [h])
    else isFalse (by intro he; cases he; exact h rfl)
  | Except.ok _, Except.error _ => isFalse (by intro h; cases h)
  | Except.error _, Except.ok _ => isFalse (by intro h; cases h)
  | Except.error a, Except.error b =>
    if h : a = b then isTrue (by rw [h])
    else isFalse (by intro he; cases he; exact h rfl)

/-- The externally visible effects of `IncrementalEngine::compute`: the
`UpdateComputed` requests sent to the store and the result published to the
task handle via `task_handle.finished` (`none` when nothing is published). -/
structure ComputeEffects where
  storeRequests : List UpdateComputedRequest
  published : Option (Except DiceError DiceComputedValue)
deriving DecidableEq, Repr

/-- `IncrementalEngine::compute`, translated from the source.  The awaited
evaluator outcome is `eval_result`; `cancellation_disabled` is whether
`try_to_disable_cancellation` returned a guard; `storeReply` is what the store
sends back on the `UpdateComputed` response channel.  If the guard is refused
the function returns before any cache update or publication; otherwise a
valid value is written to the store and the store's reply is published, a
transient value is published with history `verified(v)` and not written, and
an evaluator error is published and not written. -/
def IncrementalEngine.compute (k : DiceKey) (v : VersionNumber)
    (epoch : VersionEpoch) (eval_result : Except DiceError EvalResult)
    (cancellation_disabled : Bool)
    (storeReply : Except DiceError DiceComputedValue) : ComputeEffects :=
  if !cancellation_disabled then
    { storeRequests := [], published := none }
  else
    match eval_result with
    | Except.ok res =>
      match into_valid_value res.value with
      | Except.ok value =>
        { storeRequests := [⟨k, v, epoch, res.storage, value, res.deps⟩],
          published := some storeReply }
      | Except.error value =>
        { storeRequests := [],
          published := some (Except.ok ⟨value, CellHistory.verified v⟩) }
    | Except.error e =>
      { storeRequests := [], published := some (Except.error e) }

/-- The `VersionedGraphResultMismatch` payload of a `CheckDeps` lookup result:
the previous entry's valid value, its verified version ranges, and the deps to
validate. -/
structure VersionedGraphResultMismatch where
  entry : MaybeValidDiceValue
  verified_versions : VersionRanges
  deps_to_validate : List DiceKey
deriving DecidableEq, Repr

/-- `VersionedGraphResult`, the store's reply to a `LookupKey` request. -/
inductive VersionedGraphResult where
  | Match (entry : DiceComputedValue)
  | Compute
  | CheckDeps (mismatch : VersionedGraphResultMismatch)
deriving DecidableEq, Repr

/-- The externally visible effects of the spawned task driver: store
requests, the published result, how many `LookupKey` requests were issued and
how many times the async evaluator was invoked. -/
structure DriverEffects where
  storeRequests : List UpdateComputedRequest
  published : Option (Except DiceError DiceComputedValue)
  lookups : Nat
  evaluatorCalls : Nat
deriving DecidableEq, Repr

/-- `IncrementalEngine::eval_entry_versioned`, translated from the source.
One `LookupKey` request is issued and `lookupReply` is the store's answer.  A
`Match` publishes the cached entry.  `Compute` invokes the evaluator once and
runs `IncrementalEngine.compute`.  `CheckDeps` runs the dependency checker
over the mismatch's deps (with `depResults` the arriving resolutions); on
`Changed` or `NoDeps` it falls through to `compute`, and on `NoChange` it
reuses `mismatch.entry`, sends `UpdateComputed` at the current version, and
publishes the store's reply `reuseReply` without invoking the evaluator. -/
def eval_entry_versioned (k : DiceKey) (v : VersionNumber)
    (epoch : VersionEpoch) (storage : StorageType)
    (lookupReply : VersionedGraphResult)
    (depResults : List (Except DiceError VersionRanges))
    (eval_result : Except DiceError EvalResult) (cancellation_disabled : Bool)
    (computeReply reuseReply : Except DiceError DiceComputedValue) :
    DriverEffects :=
  match lookupReply with
  | VersionedGraphResult.Match entry =>
    { storeRequests := [], published := some (Except.ok entry),
      lookups := 1, evaluatorCalls := 0 }
  | VersionedGraphResult.Compute =>
    let c := IncrementalEngine.compute k v epoch eval_result
      cancellation_disabled computeReply
    { storeRequests := c.storeRequests, published := c.published,
      lookups := 1, evaluatorCalls := 1 }
  | VersionedGraphResult.CheckDeps mismatch =>
    match compute_whether_dependencies_changed mismatch.deps_to_validate
      mismatch.verified_versions depResults with
    | DidDepsChange.Changed =>
      let c := IncrementalEngine.compute k v epoch eval_result
        cancellation_disabled computeReply
      { storeRequests := c.storeRequests, published := c.published,
        lookups := 1, evaluatorCalls := 1 }
    | DidDepsChange.NoDeps =>
      let c := IncrementalEngine.compute k v epoch eval_result
        cancellation_disabled computeReply
      { storeRequests := c.storeRequests, published := c.published,
        lookups := 1, evaluatorCalls := 1 }
    | DidDepsChange.NoChange deps =>
      { storeRequests := [⟨k, v, epoch, storage, mismatch.entry, deps⟩],
        published := some reuseReply, lookups := 1, evaluatorCalls := 0 }

/-- Modelled from the spec: the termination status of a previously cancelled
task (`more_futures::cancellation::future::TerminationStatus`); it either
actually finished or was cancelled before finishing. -/
inductive TerminationStatus where
  | Finished
  | Cancelled
deriving DecidableEq, Repr

/-- A `PreviouslyCancelledTask`: its awaited termination status and the
result its `get_finished_value` returns (which is `some` whenever the task
finished). -/
structure PreviouslyCancelledTask where
  termination : TerminationStatus
  finished_value : Option (Except DiceError DiceComputedValue)
deriving DecidableEq, Repr

/-- The body of the task closure of `IncrementalEngine::spawn_for_key`,
translated from the source: when a previously cancelled task is given and its
termination is `Finished`, the new task publishes that task's finished value
and returns before any lookup or evaluation; otherwise it runs
`eval_entry_versioned`. -/
def spawn_for_key (prev : Option PreviouslyCancelledTask) (k : DiceKey)
    (v : VersionNumber) (epoch : VersionEpoch) (storage : StorageType)
    (lookupReply : VersionedGraphResult)
    (depResults : List (Except DiceError VersionRanges))
    (eval_result : Except DiceError EvalResult) (cancellation_disabled : Bool)
    (computeReply reuseReply : Except DiceError DiceComputedValue) :
    DriverEffects :=
  match prev with
  | some previous =>
    match previous.termination with
    | TerminationStatus.Finished =>
      { storeRequests := [], published := previous.finished_value,
        lookups := 0, evaluatorCalls := 0 }
    | TerminationStatus.Cancelled =>
      eval_entry_versioned k v epoch storage lookupReply depResults
        eval_result cancellation_disabled computeReply reuseReply
  | none =>
    eval_entry_versioned k v epoch storage lookupReply depResults
      eval_result cancellation_disabled computeReply reuseReply

/-- The externally visible effects of the `get_or_complete` closure of
`IncrementalEngine::project_for_key`: the store requests sent and the value
returned to the caller. -/
structure ProjectEffects where
  storeRequests : List UpdateComputedRequest
  result : Except DiceError DiceComputedValue
deriving DecidableEq, Repr

/-- The closure passed to `promise.get_or_complete` in
`IncrementalEngine::project_for_key`, translated from the source.  The sync
evaluator's outcome is `eval_result`.  On success, a valid value triggers an
`UpdateComputed` whose response receiver is dropped immediately (the request
is fire-and-forget, so the effects do not depend on `storeReply`, the reply
the store would send); a transient value triggers nothing.  Either way the
caller receives the evaluator's own value paired with history `verified(v)`.
Errors send nothing and are returned as-is. -/
def project_for_key_closure (k : DiceKey) (v : VersionNumber)
    (epoch : VersionEpoch) (eval_result : Except DiceError EvalResult)
    (storeReply : Except DiceError DiceComputedValue) : ProjectEffects :=
  match eval_result with
  | Except.ok res =>
    let requests :=
      match into_valid_value res.value with
      | Except.ok value => [(⟨k, v, epoch, res.storage, value, res.deps⟩ :
          UpdateComputedRequest)]
      | Except.error _ => []
    { storeRequests := requests,
      result := Except.ok ⟨res.value, CellHistory.verified v⟩ }
  | Except.error e => { storeRequests := [], result := Except.error e }

/-- `CriticalPathBackendName`, translated from
`app/buck2_build_signals_impl/src/backend/backend.rs`. -/
inductive CriticalPathBackendName where
  | LongestPathGraph
  | Default
deriving DecidableEq, Repr

/-- `impl FromStr for CriticalPathBackendName`, translated from the source:
exactly the strings "longest-path-graph" and "default" parse, everything else
is an error. -/
def CriticalPathBackendName.from_str (s : String) :
    Except String CriticalPathBackendName :=
  if s = "longest-path-graph" then Except.ok CriticalPathBackendName.LongestPathGraph
  else if s = "default" then Except.ok CriticalPathBackendName.Default
  else Except.error ("Invalid backend name: `" ++ s ++ "`")

/-- Claim C2: when disabling cancellation at the commit point fails, the
engine discards the evaluator's result — it sends no UpdateComputed request
and publishes nothing to the task handle, regardless of whether the
evaluation succeeded or failed. -/
theorem compute_cancellation_refused_discards (k : DiceKey)
    (v : VersionNumber) (epoch : VersionEpoch)
    (eval_result : Except DiceError EvalResult)
    (storeReply : Except DiceError DiceComputedValue) :
    IncrementalEngine.compute k v epoch eval_result false storeReply =
      { storeRequests := [], published := none } := rfl

/-- Claim C4: when the evaluator returns an error and cancellation is
successfully disabled, the engine publishes that error and sends no
UpdateComputed request, so the error is not cached. -/
theorem compute_error_published_not_cached (k : DiceKey) (v : VersionNumber)
    (epoch : VersionEpoch) (e : DiceError)
    (storeReply : Except DiceError DiceComputedValue) :
    IncrementalEngine.compute k v epoch (Except.error e) true storeReply =
      { storeRequests := [], published := some (Except.error e) } := rfl

/-- Claim C5: when the evaluator returns a transient (non-valid) value and
cancellation is successfully disabled, the engine publishes a computed value
whose history is exactly verified(V) and sends no UpdateComputed request. -/
theorem compute_transient_published_verified (k : DiceKey)
    (v : VersionNumber) (epoch : VersionEpoch) (res : EvalResult)
    (storeReply : Except DiceError DiceComputedValue)
    (h : res.value.valid = false) :
    IncrementalEngine.compute k v epoch (Except.ok res) true storeReply =
      { storeRequests := [],
        published :=
          some (Except.ok ⟨res.value, CellHistory.verified v⟩) } := by
  simp [IncrementalEngine.compute, into_valid_value, h]

/-- Witness for claim C5: a concrete transient evaluation at version 1. -/
theorem compute_transient_published_verified_witness :
    IncrementalEngine.compute 0 1 0
        (Except.ok ⟨⟨0, false⟩, StorageType.Normal, []⟩) true
        (Except.error 0) =
      { storeRequests := [],
        published :=
          some (Except.ok ⟨⟨0, false⟩, CellHistory.verified 1⟩) } :=
  compute_transient_published_verified 0 1 0
    ⟨⟨0, false⟩, StorageType.Normal, []⟩ (Except.error 0) rfl

/-- Claim C8: a dependency-check call with an empty dep list returns NoDeps
immediately, for every verified-versions argument and independently of any
dependency resolutions. -/
theorem check_deps_empty_returns_nodeps (verified : VersionRanges)
    (depResults : List (Except DiceError VersionRanges)) :
    compute_whether_dependencies_changed [] verified depResults =
      DidDepsChange.NoDeps := rfl

/-- Claim C9: parsing a critical-path backend name succeeds exactly on the
strings "longest-path-graph" and "default", yielding the corresponding
variant; every other string is rejected with an error. -/
theorem backend_name_from_str_spec (s : String) :
    (s = "longest-path-graph" →
      CriticalPathBackendName.from_str s =
        Except.ok CriticalPathBackendName.LongestPathGraph) ∧
    (s = "default" →
      CriticalPathBackendName.from_str s =
        Except.ok CriticalPathBackendName.Default) ∧
    (s ≠ "longest-path-graph" → s ≠ "default" →
      CriticalPathBackendName.from_str s =
        Except.error ("Invalid backend name: `" ++ s ++ "`")) := by
  refine ⟨fun h => ?_, fun h => ?_, fun h1 h2 => ?_⟩
  · subst h; rfl
  · subst h; rfl
  · simp [CriticalPathBackendName.from_str, h1, h2]

/-- Witness for claim C9: "default" parses, "bogus" is rejected. -/
theorem backend_name_from_str_spec_witness :
    CriticalPathBackendName.from_str "default" =
      Except.ok CriticalPathBackendName.Default ∧
    CriticalPathBackendName.from_str "bogus" =
      Except.error ("Invalid backend name: `" ++ "bogus" ++ "`") :=
  ⟨(backend_name_from_str_spec "default").2.1 rfl,
   (backend_name_from_str_spec "bogus").2.2 (by decide) (by decide)⟩

/-- Claim C10: in the projection completion closure, a successful but
non-valid value sends no UpdateComputed yet is returned wrapped with history
verified(v); a valid value fires the UpdateComputed, and in both cases the
returned history is verified(v) and is independent of the store's reply
(the reply receiver is dropped without being awaited). -/
theorem project_closure_effects (k : DiceKey) (v : VersionNumber)
    (epoch : VersionEpoch) (res : EvalResult)
    (reply reply' : Except DiceError DiceComputedValue) :
    (res.value.valid = false →
      (project_for_key_closure k v epoch (Except.ok res)
          reply).storeRequests = []) ∧
    (res.value.valid = true →
      (project_for_key_closure k v epoch (Except.ok res)
          reply).storeRequests =
        [⟨k, v, epoch, res.storage, res.value, res.deps⟩]) ∧
    (project_for_key_closure k v epoch (Except.ok res) reply).result =
      Except.ok ⟨res.value, CellHistory.verified v⟩ ∧
    project_for_key_closure k v epoch (Except.ok res) reply =
      project_for_key_closure k v epoch (Except.ok res) reply' := by
  refine ⟨fun h => ?_, fun h => ?_, ?_, rfl⟩
  · simp [project_for_key_closure, into_valid_value, h]
  · simp [project_for_key_closure, into_valid_value, h]
  · rfl

/-- Witness for claim C10: a valid value fires the update, a transient one
does not, with concrete inputs. -/
theorem project_closure_effects_witness :
    (project_for_key_closure 0 1 2
        (Except.ok ⟨⟨5, true⟩, StorageType.Normal, [3]⟩)
        (Except.error 0)).storeRequests =
      [⟨0, 1, 2, StorageType.Normal, ⟨5, true⟩, [3]⟩] ∧
    (project_for_key_closure 0 1 2
        (Except.ok ⟨⟨5, false⟩, StorageType.Normal, []⟩)
        (Except.error 0)).storeRequests = [] :=
  ⟨(project_closure_effects 0 1 2 ⟨⟨5, true⟩, StorageType.Normal, [3]⟩
      (Except.error 0) (Except.error 0)).2.1 rfl,
   (project_closure_effects 0 1 2 ⟨⟨5, false⟩, StorageType.Normal, []⟩
      (Except.error 0) (Except.error 0)).1 rfl⟩

/-- Claim C3: a task spawned with a previously cancelled task whose
termination is Finished publishes that task's finished value with no store
lookup and no evaluator invocation; any other termination status proceeds
with normal evaluation. -/
theorem spawn_for_key_adoption (previous : PreviouslyCancelledTask)
    (r : Except DiceError DiceComputedValue) (k : DiceKey)
    (v : VersionNumber) (epoch : VersionEpoch) (storage : StorageType)
    (lookupReply : VersionedGraphResult)
    (depResults : List (Except DiceError VersionRanges))
    (eval_result : Except DiceError EvalResult)
    (cancellation_disabled : Bool)
    (computeReply reuseReply : Except DiceError DiceComputedValue) :
    (previous.termination = TerminationStatus.Finished →
      previous.finished_value = some r →
      spawn_for_key (some previous) k v epoch storage lookupReply depResults
          eval_result cancellation_disabled computeReply reuseReply =
        { storeRequests := [], published := some r, lookups := 0,
          evaluatorCalls := 0 }) ∧
    (previous.termination ≠ TerminationStatus.Finished →
      spawn_for_key (some previous) k v epoch storage lookupReply depResults
          eval_result cancellation_disabled computeReply reuseReply =
        eval_entry_versioned k v epoch storage lookupReply depResults
          eval_result cancellation_disabled computeReply reuseReply) := by
  constructor
  · intro ht hv
    simp [spawn_for_key, ht, hv]
  · intro ht
    cases h : previous.termination with
    | Finished => exact absurd h ht
    | Cancelled => simp [spawn_for_key, h]

/-- Witness for claim C3: a concrete finished predecessor is adopted, a
concrete cancelled predecessor falls through to normal evaluation. -/
theorem spawn_for_key_adoption_witness :
    spawn_for_key (some ⟨TerminationStatus.Finished, some (Except.error 7)⟩)
        0 1 2 StorageType.Normal VersionedGraphResult.Compute []
        (Except.error 0) true (Except.error 0) (Except.error 0) =
      { storeRequests := [], published := some (Except.error 7),
        lookups := 0, evaluatorCalls := 0 } ∧
    spawn_for_key (some ⟨TerminationStatus.Cancelled, none⟩)
        0 1 2 StorageType.Normal VersionedGraphResult.Compute []
        (Except.error 0) true (Except.error 0) (Except.error 0) =
      eval_entry_versioned 0 1 2 StorageType.Normal
        VersionedGraphResult.Compute [] (Except.error 0) true
        (Except.error 0) (Except.error 0) :=
  ⟨(spawn_for_key_adoption
      ⟨TerminationStatus.Finished, some (Except.error 7)⟩ (Except.error 7)
      0 1 2 StorageType.Normal VersionedGraphResult.Compute []
      (Except.error 0) true (Except.error 0) (Except.error 0)).1 rfl rfl,
   (spawn_for_key_adoption ⟨TerminationStatus.Cancelled, none⟩
      (Except.error 7) 0 1 2 StorageType.Normal
      VersionedGraphResult.Compute [] (Except.error 0) true
      (Except.error 0) (Except.error 0)).2 (by decide)⟩

/-- Claim C6: the checker folds each arriving dep's verified ranges into a
running intersection; the moment the running intersection becomes empty it
returns Changed without examining any later arrival, and while it stays
non-empty the loop continues from the running value. -/
theorem check_deps_running_intersection (deps : List DiceKey)
    (verified : VersionRanges) (xs : List VersionRanges)
    (tail : List (Except DiceError VersionRanges)) :
    (runIntersect verified xs = none →
      depsCheckLoop deps verified (xs.map Except.ok ++ tail) =
        DidDepsChange.Changed) ∧
    (∀ w, runIntersect verified xs = some w →
      depsCheckLoop deps verified (xs.map Except.ok ++ tail) =
        depsCheckLoop deps w tail) := by
  induction xs generalizing verified with
  | nil =>
    refine ⟨fun h => ?_, fun w hw => ?_⟩
    · cases h
    · simp only [runIntersect, Option.some.injEq] at hw
      subst hw
      rfl
  | cons r rest ih =>
    refine ⟨fun h => ?_, fun w hw => ?_⟩
    · simp only [runIntersect] at h
      simp only [List.map_cons, List.cons_append, depsCheckLoop]
      by_cases he : (verified.intersect r).is_empty = true
      · rw [if_pos he]
      · rw [if_neg he] at h ⊢
        exact (ih (verified.intersect r)).1 h
    · simp only [runIntersect] at hw
      simp only [List.map_cons, List.cons_append, depsCheckLoop]
      by_cases he : (verified.intersect r).is_empty = true
      · rw [if_pos he] at hw
        cases hw
      · rw [if_neg he] at hw ⊢
        exact (ih (verified.intersect r)).2 w hw

/-- Witness for claim C6: with a first dep whose ranges are disjoint from the
prior verified range, the loop returns Changed without the later arrival
mattering. -/
theorem check_deps_running_intersection_witness :
    depsCheckLoop [0] ⟨[(1, 2)]⟩
        ([⟨[(5, 6)]⟩].map Except.ok ++ [Except.ok ⟨[(1, 2)]⟩]) =
      DidDepsChange.Changed :=
  (check_deps_running_intersection [0] ⟨[(1, 2)]⟩ [⟨[(5, 6)]⟩]
    [Except.ok ⟨[(1, 2)]⟩]).1 (by decide)

/-- Helper for claim C7: the arrival loop returns Changed whenever an errored
dependency resolution is among the arrivals, whatever the running
intersection. -/
theorem depsCheckLoop_error_mem (deps : List DiceKey) (e : DiceError) :
    ∀ (rs : List (Except DiceError VersionRanges)) (w : VersionRanges),
      Except.error e ∈ rs →
      depsCheckLoop deps w rs = DidDepsChange.Changed
  | [], _, h => absurd h (List.not_mem_nil _)
  | Except.error _ :: _, _, _ => rfl
  | Except.ok r :: rest, w, h => by
    have hr : Except.error e ∈ rest := by
      rcases List.mem_cons.mp h with h1 | h2
      · exact Except.noConfusion h1
      · exact h2
    simp only [depsCheckLoop]
    by_cases he : (w.intersect r).is_empty = true
    · rw [if_pos he]
    · rw [if_neg he]
      exact depsCheckLoop_error_mem deps e rest (w.intersect r) hr

/-- Claim C7: if any dependency resolution returns an error, the checker
returns Changed (forcing the parent to recompute) rather than caching or
propagating the error. -/
theorem check_deps_error_returns_changed (deps : List DiceKey)
    (verified : VersionRanges)
    (depResults : List (Except DiceError VersionRanges)) (e : DiceError)
    (hdeps : deps ≠ []) (hmem : Except.error e ∈ depResults) :
    compute_whether_dependencies_changed deps verified depResults =
      DidDepsChange.Changed := by
  have hne : deps.isEmpty = false := by
    cases deps with
    | nil => exact absurd rfl hdeps
    | cons a as => rfl
  simp only [compute_whether_dependencies_changed, hne,
    Bool.false_eq_true, if_false]
  exact depsCheckLoop_error_mem deps e depResults verified hmem

/-- Witness for claim C7: a concrete errored second arrival forces
Changed. -/
theorem check_deps_error_returns_changed_witness :
    compute_whether_dependencies_changed [0] ⟨[(1, 2)]⟩
        [Except.ok ⟨[(1, 3)]⟩, Except.error 4] = DidDepsChange.Changed :=
  check_deps_error_returns_changed [0] ⟨[(1, 2)]⟩
    [Except.ok ⟨[(1, 3)]⟩, Except.error 4] 4 (by decide) (by decide)

/-- Helper for claim C1: if the arrival loop over error-free resolutions
returns NoChange, the full intersection of the prior verified ranges with
every dep's ranges is non-empty. -/
theorem depsCheckLoop_noChange_nonempty (deps : List DiceKey) :
    ∀ (rs : List VersionRanges) (w : VersionRanges), rs ≠ [] →
      depsCheckLoop deps w (rs.map Except.ok) =
        DidDepsChange.NoChange deps →
      (finalIntersection w rs).is_empty = false
  | [], _, hne, _ => absurd rfl hne
  | [r], w, _, h => by
    simp only [List.map_cons, List.map_nil, depsCheckLoop] at h
    by_cases he : (w.intersect r).is_empty = true
    · rw [if_pos he] at h
      cases h
    · simp only [finalIntersection, List.foldl]
      simpa using he
  | r :: r2 :: rest, w, _, h => by
    simp only [List.map_cons, depsCheckLoop] at h
    by_cases he : (w.intersect r).is_empty = true
    · rw [if_pos he] at h
      cases h
    · rw [if_neg he] at h
      have hrec := depsCheckLoop_noChange_nonempty deps (r2 :: rest)
        (w.intersect r) (by simp) (by simpa using h)
      simpa [finalIntersection, List.foldl] using hrec

/-- Counterexample for claim C1 as stated.  At current version V = 3, the
prior entry was verified on [1, 2) and its single dep resolves without error
to verified ranges [1, 4), which contain V (as a dep resolved at V must).
The checker returns NoChange because the intersection [1, 2) is non-empty,
yet that final intersection does not contain V = 3: the code only tests
non-emptiness, never membership of the current version. -/
theorem check_deps_noChange_contains_v_counterexample :
    compute_whether_dependencies_changed [0] ⟨[(1, 2)]⟩
        ([⟨[(1, 4)]⟩].map Except.ok) = DidDepsChange.NoChange [0] ∧
    VersionRanges.contains ⟨[(1, 4)]⟩ 3 = true ∧
    (finalIntersection ⟨[(1, 2)]⟩ [⟨[(1, 4)]⟩]).is_empty = false ∧
    (finalIntersection ⟨[(1, 2)]⟩ [⟨[(1, 4)]⟩]).contains 3 = false := by
  decide

/-- Claim C1 (amended): for a dependency-check call with a non-empty dep
list in which every dep resolves without error, if the checker returns
NoChange then the final intersection of the prior verified ranges with every
dep's verified ranges is non-empty; it need not contain the current
version. -/
theorem check_deps_noChange_intersection_nonempty (deps : List DiceKey)
    (verified : VersionRanges) (rs : List VersionRanges)
    (hdeps : deps ≠ []) (hlen : rs.length = deps.length)
    (h : compute_whether_dependencies_changed deps verified
        (rs.map Except.ok) = DidDepsChange.NoChange deps) :
    (finalIntersection verified rs).is_empty = false := by
  have hne : deps.isEmpty = false := by
    cases deps with
    | nil => exact absurd rfl hdeps
    | cons a as => rfl
  have hrs : rs ≠ [] := by
    intro hnil
    subst hnil
    have hz : deps.length = 0 := by simpa using hlen.symm
    exact hdeps (List.length_eq_zero.mp hz)
  simp only [compute_whether_dependencies_changed, hne,
    Bool.false_eq_true, if_false] at h
  exact depsCheckLoop_noChange_nonempty deps rs verified hrs h

/-- Witness for the amended claim C1: one dep, prior verified range [1, 2),
dep ranges [1, 4); the checker returns NoChange and the final intersection
[1, 2) is non-empty. -/
theorem check_deps_noChange_intersection_nonempty_witness :
    (finalIntersection ⟨[(1, 2)]⟩ [⟨[(1, 4)]⟩]).is_empty = false :=
  check_deps_noChange_intersection_nonempty [0] ⟨[(1, 2)]⟩ [⟨[(1, 4)]⟩]
    (by decide) (by decide) (by decide)
